import Mathlib

/-!
Shallow embedding of `src/extract_sleep_data.py` (Apple Health sleep-data
extractor).  The script reads `export.xml`, keeps the `Record` children of
the root whose `type` attribute ends with `"SleepAnalysis"`, parses the
`startDate`/`endDate` attributes with two fallback datetime patterns,
computes a duration in minutes rounded to two decimals, simplifies the
`value` attribute by deleting every occurrence of the marker string
`"HKCategoryValueSleepAnalysis"` and stripping leading whitespace, and
writes one CSV row per surviving record, counting written and skipped
records.

Modelling conventions:
* Python strings are Lean `String`s (operated on through `String.data`).
* `datetime.strptime` for the two concrete format strings
  `"%Y-%m-%d %H:%M:%S %z"` and `"%Y-%m-%dT%H:%M:%S%z"` is embedded as two
  character-list parsers that follow CPython's `_strptime` regular
  expressions for these directives (including the `\s+` treatment of a
  literal space, the case-insensitive literal `T`, one-or-two digit
  numeric fields, and the `%z` forms `±HHMM`, `±HH:MM`, optional seconds
  with optional fractional microseconds under `_strptime`'s
  colon-consistency rule, and the literal `Z`), followed by the
  constructor-level range checks of `datetime`/`timezone`.
  Unicode whitespace outside ASCII is not modelled.
* Floating-point arithmetic of the script (`total_seconds`, `/ 60`,
  `round(x, 2)`) is modelled exactly over `ℚ`, with Python's `round`
  (round-half-to-even) expressed on rationals.
* The filesystem is modelled by an explicit input state (missing file /
  malformed document / parsed list of `Record` children) and the previous
  contents of the output file, mirroring the statement order of `main`.
-/

namespace SleepData

/-- ASCII whitespace recognised by Python's `str.lstrip()` (the Unicode
whitespace outside ASCII is not modelled). -/
def pyIsSpaceStr (c : Char) : Bool :=
  c = ' ' || c = '\t' || c = '\n' || c = '\r' || c = '\x0b' || c = '\x0c'

/-- ASCII whitespace recognised by the regex class `\s` used by
`_strptime` for a literal space in the format string. -/
def reIsSpace (c : Char) : Bool :=
  c = ' ' || c = '\t' || c = '\n' || c = '\r' || c = '\x0b' || c = '\x0c'

/-- Python `str.lstrip()` on character lists. -/
def pyLstrip (s : List Char) : List Char := s.dropWhile pyIsSpaceStr

/-- Python `str.endswith(suffix)`. -/
def pyEndsWith (s suf : String) : Bool := List.isSuffixOf suf.data s.data

/-- Worker for `pyReplaceAll`, structurally recursive on a fuel
parameter so that it evaluates by kernel reduction; every step shortens
the text by at least one character, so fuel equal to the text length
never runs out and the `0`-fuel equation is unreachable from
`pyReplaceAll`. -/
def pyReplaceAllGo (pat : List Char) : Nat → List Char → List Char
  | _, [] => []
  | 0, s => s
  | fuel + 1, c :: rest =>
    if pat ≠ [] ∧ pat <+: (c :: rest) then
      pyReplaceAllGo pat fuel (List.drop (pat.length - 1) rest)
    else
      c :: pyReplaceAllGo pat fuel rest

/-- Python `str.replace(pat, "")` for a fixed pattern: delete every
left-to-right non-overlapping occurrence of `pat`.  (For the empty
pattern Python would interleave the replacement; the script's pattern is
a fixed non-empty literal, and the guard keeps the function total.) -/
def pyReplaceAll (pat s : List Char) : List Char := pyReplaceAllGo pat s.length s

/-- The module constant `PREFIX = "HKCategoryValueSleepAnalysis"`. -/
def PREFIX : String := "HKCategoryValueSleepAnalysis"

/-- `simplify_value`: `value.replace(PREFIX, "").lstrip()`. -/
def simplify_value (value : String) : String :=
  String.mk (pyLstrip (pyReplaceAll PREFIX.data value.data))

/-- A timezone-aware `datetime` as produced by `datetime.strptime` with
the script's two formats: calendar fields plus a UTC offset in
microseconds. -/
structure PDatetime where
  year : Nat
  month : Nat
  day : Nat
  hour : Nat
  minute : Nat
  second : Nat
  offUs : Int
deriving DecidableEq

deriving instance DecidableEq for Except

/-- Numeric value of an ASCII digit. -/
def digitVal (c : Char) : Option Nat :=
  if c.isDigit then some (c.toNat - 48) else none

/-- Parse exactly `n` ASCII digits (most significant first), accumulator
style, returning the value and the remaining characters. -/
def parseDigitsAcc : Nat → Nat → List Char → Option (Nat × List Char)
  | 0, acc, cs => some (acc, cs)
  | n + 1, acc, cs =>
    match cs with
    | [] => none
    | c :: rest =>
      match digitVal c with
      | some d => parseDigitsAcc n (acc * 10 + d) rest
      | none => none

/-- Parse exactly `n` ASCII digits. -/
def parseFixed (n : Nat) (cs : List Char) : Option (Nat × List Char) :=
  parseDigitsAcc n 0 cs

/-- One-or-two-digit numeric directive of `_strptime` (e.g. `%m` is
`1[0-2]|0[1-9]|[1-9]`): take two digits when their value is admissible
for the two-digit alternatives, else fall back to a single digit.  In the
script's two formats every numeric directive is followed by a
non-digit token, so this deterministic rule agrees with the regex
backtracking semantics. -/
def parse2or1 (valid2 : Nat → Bool) (valid1 : Nat → Bool) (cs : List Char) :
    Option (Nat × List Char) :=
  match cs with
  | [] => none
  | c :: rest =>
    match digitVal c with
    | none => none
    | some d1 =>
      match rest with
      | c2 :: rest2 =>
        match digitVal c2 with
        | some d2 =>
          if valid2 (10 * d1 + d2) then some (10 * d1 + d2, rest2)
          else if valid1 d1 then some (d1, c2 :: rest2) else none
        | none => if valid1 d1 then some (d1, c2 :: rest2) else none
      | [] => if valid1 d1 then some (d1, []) else none

/-- Match one literal character satisfying `ok`. -/
def expectLit (ok : Char → Bool) (cs : List Char) : Option (List Char) :=
  match cs with
  | c :: rest => if ok c then some rest else none
  | [] => none

/-- A literal space in a `strptime` format is compiled to `\s+`: one or
more whitespace characters (greedy; the following token never begins
with whitespace in these formats). -/
def skipWs1 (cs : List Char) : Option (List Char) :=
  match cs with
  | c :: rest => if reIsSpace c then some (rest.dropWhile reIsSpace) else none
  | [] => none

/-- Optional fractional part `(\.\d{1,6})?` of the `%z` directive,
returned as microseconds (digits right-padded to six places); when it
does not match, no input is consumed. -/
def parseFracUs (cs : List Char) : Nat × List Char :=
  match cs with
  | '.' :: c :: rest =>
    match digitVal c with
    | some _ =>
      let ds := ((c :: rest).takeWhile fun ch => (digitVal ch).isSome).take 6
      let v := ds.foldl (fun a ch => a * 10 + (digitVal ch).getD 0) 0
      (v * 10 ^ (6 - ds.length), (c :: rest).drop ds.length)
    | none => (0, '.' :: c :: rest)
  | other => (0, other)

/-- Optional seconds group `(:?[0-5]\d(\.\d{1,6})?)?` of `%z`: seconds
and fractional microseconds, defaulting to `(0, 0)` with no input
consumed when the group does not match.  `colonHM` says whether a colon
separated hours from minutes; CPython's `_strptime` post-processing
demands consistent colon use, raising `ValueError` for the mixed forms
(`+08:3045` gives `Inconsistent use of :`, `+0830:45` fails
`int(":4")`).  Since `%z` ends both of the script's formats, refusing
the group here leaves unconsumed input that fails the full-match check,
which is observationally the same `ValueError` outcome. -/
def parseSecGroup (colonHM : Bool) (cs : List Char) : Nat × Nat × List Char :=
  let (hasColon, body) := match cs with
    | ':' :: t => (true, t)
    | other => (false, other)
  match parseFixed 2 body with
  | some (ss, r) =>
    if ss ≤ 59 && hasColon == colonHM then
      let (us, r2) := parseFracUs r
      (ss, us, r2)
    else (0, 0, cs)
  | none => (0, 0, cs)

/-- The `%z` directive
(`[+-]\d\d:?[0-5]\d(:?[0-5]\d(\.\d{1,6})?)?|Z`) followed by CPython's
post-regex processing, returning the signed offset in microseconds.
Whether a colon separates hours from minutes is recorded and handed to
the seconds group, which must use a colon exactly when the first part
did (`_strptime`'s colon-consistency `ValueError`s). -/
def parseOffUs (cs : List Char) : Option (Int × List Char) :=
  match cs with
  | [] => none
  | c :: rest =>
    if c = 'Z' then some (0, rest)
    else if c = '+' || c = '-' then
      match parseFixed 2 rest with
      | none => none
      | some (hh, r1) =>
        let (colonHM, body) := match r1 with
          | ':' :: t => (true, t)
          | other => (false, other)
        match parseFixed 2 body with
        | none => none
        | some (mm, r2) =>
          if mm ≤ 59 then
            let (ss, us, r3) := parseSecGroup colonHM r2
            let total : Int := ((hh * 3600 + mm * 60 + ss) * 1000000 + us : Nat)
            some (if c = '-' then -total else total, r3)
          else none
    else none

/-- Leap year of the proleptic Gregorian calendar (as `datetime`). -/
def isLeapYear (y : Nat) : Bool :=
  y % 4 == 0 && (y % 100 != 0 || y % 400 == 0)

/-- Month lengths for a given year. -/
def monthLengths (y : Nat) : List Nat :=
  [31, if isLeapYear y then 29 else 28, 31, 30, 31, 30, 31, 31, 30, 31, 30, 31]

/-- Number of days in month `mo` (1-based) of year `y`. -/
def daysInMonth (y mo : Nat) : Nat := (monthLengths y).getD (mo - 1) 31

/-- Days in year `y` before month `mo` (1-based). -/
def daysBeforeMonth (y mo : Nat) : Nat :=
  ((monthLengths y).take (mo - 1)).foldl (· + ·) 0

/-- Proleptic-Gregorian ordinal of a date (CPython `_ymd2ord`):
day 1 is 0001-01-01. -/
def toOrdinal (y mo d : Nat) : Nat :=
  365 * (y - 1) + (y - 1) / 4 - (y - 1) / 100 + (y - 1) / 400
    + daysBeforeMonth y mo + d

/-- Instant of a parsed datetime on the UTC timeline, in microseconds
from the epoch of the ordinal scale. -/
def utcUs (dt : PDatetime) : Int :=
  ((toOrdinal dt.year dt.month dt.day : Int) * 86400
      + (dt.hour : Int) * 3600 + (dt.minute : Int) * 60 + (dt.second : Int))
    * 1000000 - dt.offUs

/-- Constructor-level validation performed by `datetime(...)` and
`timezone(timedelta(...))` after the regex match: year in `MINYEAR ..
MAXYEAR`, a real calendar day, seconds at most 59 (the regex admits
60/61 but the constructor rejects them), and a UTC offset strictly
smaller than 24 hours in magnitude. -/
def mkDatetime (y mo d h mi s : Nat) (offUs : Int) : Option PDatetime :=
  if 1 ≤ y ∧ y ≤ 9999 ∧ 1 ≤ mo ∧ mo ≤ 12 ∧ 1 ≤ d ∧ d ≤ daysInMonth y mo
      ∧ h ≤ 23 ∧ mi ≤ 59 ∧ s ≤ 59 ∧ offUs.natAbs < 86400000000 then
    some ⟨y, mo, d, h, mi, s, offUs⟩
  else none

/-- `datetime.strptime(s, "%Y-%m-%d %H:%M:%S %z")`. -/
def strptimeSpace (s : String) : Option PDatetime := do
  let (y, r1) ← parseFixed 4 s.data
  let r2 ← expectLit (fun c => c = '-') r1
  let (mo, r3) ← parse2or1 (fun v => 1 ≤ v && v ≤ 12) (fun v => 1 ≤ v && v ≤ 9) r2
  let r4 ← expectLit (fun c => c = '-') r3
  let (d, r5) ← parse2or1 (fun v => 1 ≤ v && v ≤ 31) (fun v => 1 ≤ v && v ≤ 9) r4
  let r6 ← skipWs1 r5
  let (h, r7) ← parse2or1 (fun v => v ≤ 23) (fun _ => true) r6
  let r8 ← expectLit (fun c => c = ':') r7
  let (mi, r9) ← parse2or1 (fun v => v ≤ 59) (fun _ => true) r8
  let r10 ← expectLit (fun c => c = ':') r9
  let (sec, r11) ← parse2or1 (fun v => v ≤ 61) (fun _ => true) r10
  let r12 ← skipWs1 r11
  let (off, r13) ← parseOffUs r12
  if r13.isEmpty then mkDatetime y mo d h mi sec off else none

/-- `datetime.strptime(s, "%Y-%m-%dT%H:%M:%S%z")` (the literal `T` is
matched case-insensitively, as `_strptime` compiles with IGNORECASE). -/
def strptimeT (s : String) : Option PDatetime := do
  let (y, r1) ← parseFixed 4 s.data
  let r2 ← expectLit (fun c => c = '-') r1
  let (mo, r3) ← parse2or1 (fun v => 1 ≤ v && v ≤ 12) (fun v => 1 ≤ v && v ≤ 9) r2
  let r4 ← expectLit (fun c => c = '-') r3
  let (d, r5) ← parse2or1 (fun v => 1 ≤ v && v ≤ 31) (fun v => 1 ≤ v && v ≤ 9) r4
  let r6 ← expectLit (fun c => c = 'T' || c = 't') r5
  let (h, r7) ← parse2or1 (fun v => v ≤ 23) (fun _ => true) r6
  let r8 ← expectLit (fun c => c = ':') r7
  let (mi, r9) ← parse2or1 (fun v => v ≤ 59) (fun _ => true) r8
  let r10 ← expectLit (fun c => c = ':') r9
  let (sec, r11) ← parse2or1 (fun v => v ≤ 61) (fun _ => true) r10
  let (off, r12) ← parseOffUs r11
  if r12.isEmpty then mkDatetime y mo d h mi sec off else none

/-- `parse_apple_datetime`: try the two formats in order, return the
first success, otherwise raise `ValueError` with the offending text. -/
def parse_apple_datetime (dt_str : String) : Except String PDatetime :=
  match strptimeSpace dt_str with
  | some d => .ok d
  | none =>
    match strptimeT dt_str with
    | some d => .ok d
    | none => .error ("Unrecognised datetime: " ++ dt_str)

/-- Python `round(q)` to an integer: round half to even. -/
def roundHalfEven (q : ℚ) : ℤ :=
  if Int.fract q < 1 / 2 then ⌊q⌋
  else if 1 / 2 < Int.fract q then ⌊q⌋ + 1
  else if ⌊q⌋ % 2 = 0 then ⌊q⌋ else ⌊q⌋ + 1

/-- Python `round(q, 2)` modelled exactly over `ℚ` (CPython rounds the
binary double; on the exact rational value the same
round-half-to-even rule applies). -/
def pyRound2 (q : ℚ) : ℚ := (roundHalfEven (q * 100) : ℚ) / 100

/-- One `Record` child of the root, reduced to the four attributes the
script reads (`record.attrib`; an absent attribute is `none`). -/
structure RawRecord where
  typeAttr : Option String
  startDate : Option String
  endDate : Option String
  value : Option String
deriving DecidableEq

/-- The filter condition
`record.attrib.get("type", "").endswith("SleepAnalysis")`. -/
def matchingB (r : RawRecord) : Bool :=
  pyEndsWith (r.typeAttr.getD "") "SleepAnalysis"

/-- `(end - start).total_seconds()` as an exact rational (seconds). -/
def totalSecondsQ (a b : PDatetime) : ℚ := ((utcUs b - utcUs a : Int) : ℚ) / 1000000

/-- `duration_min = (end - start).total_seconds() / 60` (exact). -/
def rawDurationMin (a b : PDatetime) : ℚ := totalSecondsQ a b / 60

/-- One CSV data row as assembled by `writer.writerow([...])`: the two
datetimes (rendered by `isoformat` in the file), the rounded duration,
and the simplified value. -/
structure Row where
  start : PDatetime
  end_ : PDatetime
  durationMinutes : ℚ
  value : String
deriving DecidableEq

/-- The body of the `try` block of the per-record loop:
`record.attrib["startDate"]` / `["endDate"]` raise `KeyError` (whose
`str` is the quoted key) when absent, `parse_apple_datetime` raises
`ValueError`; on success the row fields are computed.  The error string
is the `str` of the caught exception, as interpolated into the
diagnostic. -/
def transformRecord (r : RawRecord) : Except String Row :=
  match r.startDate with
  | none => .error "'startDate'"
  | some sd =>
    match parse_apple_datetime sd with
    | .error e => .error e
    | .ok s =>
      match r.endDate with
      | none => .error "'endDate'"
      | some ed =>
        match parse_apple_datetime ed with
        | .error e => .error e
        | .ok e_ =>
          .ok { start := s, end_ := e_,
                durationMinutes := pyRound2 (rawDurationMin s e_),
                value := simplify_value (r.value.getD "") }

/-- The diagnostic printed for a skipped record. -/
def skipLine (e : String) : String := "⚠️  Skipping record: " ++ e

/-- Mutable loop state of `main`: rows written so far, the two counters,
and the warning lines printed so far. -/
structure RunState where
  rows : List Row
  written : Nat
  skipped : Nat
  diagnostics : List String
deriving DecidableEq

/-- One iteration of `for record in root.findall("Record")`: filtered
records `continue` silently, a failing transform skips (counter plus
warning), a successful transform writes one row. -/
def processRecord (st : RunState) (r : RawRecord) : RunState :=
  if matchingB r = false then st
  else
    match transformRecord r with
    | .error e =>
      { st with skipped := st.skipped + 1,
                diagnostics := st.diagnostics ++ [skipLine e] }
    | .ok row =>
      { st with rows := st.rows ++ [row], written := st.written + 1 }

/-- The whole loop, started from empty rows and zero counters. -/
def processAll (records : List RawRecord) : RunState :=
  List.foldl processRecord ⟨[], 0, 0, []⟩ records

/-- Left-pad a decimal numeral with zeros to `w` places. -/
def natPad (w n : Nat) : String :=
  String.mk (List.replicate (w - (toString n).length) '0') ++ toString n

/-- The UTC-offset suffix of `datetime.isoformat()`: `±HH:MM`, extended
with `:SS` when the offset has seconds and `.ffffff` when it has
microseconds. -/
def isoOffsetStr (offUs : Int) : String :=
  let sign := if offUs < 0 then "-" else "+"
  let a := offUs.natAbs
  let us := a % 1000000
  let totalSec := a / 1000000
  sign ++ natPad 2 (totalSec / 3600) ++ ":" ++ natPad 2 (totalSec % 3600 / 60)
    ++ (if totalSec % 60 = 0 ∧ us = 0 then ""
        else ":" ++ natPad 2 (totalSec % 60)
          ++ (if us = 0 then "" else "." ++ natPad 6 us))

/-- `datetime.isoformat()` for the datetimes the script produces
(whole seconds, timezone-aware). -/
def isoformat (dt : PDatetime) : String :=
  natPad 4 dt.year ++ "-" ++ natPad 2 dt.month ++ "-" ++ natPad 2 dt.day
    ++ "T" ++ natPad 2 dt.hour ++ ":" ++ natPad 2 dt.minute ++ ":"
    ++ natPad 2 dt.second ++ isoOffsetStr dt.offUs

/-- Decimal rendering of a two-decimal rational, following `repr` of the
Python float `round(x, 2)` (shortest form: trailing zeros dropped, but
at least one digit after the point). -/
def renderDuration (q : ℚ) : String :=
  let c : Int := ⌊q * 100⌋
  let a := c.natAbs
  let sign := if c < 0 then "-" else ""
  if a % 100 = 0 then sign ++ toString (a / 100) ++ ".0"
  else if a % 10 = 0 then sign ++ toString (a / 100) ++ "." ++ toString (a % 100 / 10)
  else sign ++ toString (a / 100) ++ "." ++ natPad 2 (a % 100)

/-- Minimal quoting of `csv.writer` (QUOTE_MINIMAL, `"` as quotechar). -/
def csvField (s : String) : String :=
  if s.data.any (fun c => c = ',' || c = '"' || c = '\n' || c = '\r') then
    "\"" ++ String.mk
        (s.data.foldr (fun c acc => if c = '"' then '"' :: '"' :: acc else c :: acc) [])
      ++ "\""
  else s

/-- One CSV line (`csv.writer` uses CRLF line termination). -/
def csvLine (fields : List String) : String :=
  String.intercalate "," (fields.map csvField) ++ "\r\n"

/-- The four cells passed to `writer.writerow` for one record. -/
def rowFields (row : Row) : List String :=
  [isoformat row.start, isoformat row.end_,
   renderDuration row.durationMinutes, row.value]

/-- Full contents of `sleep_data.csv`: header plus one line per row. -/
def renderCsv (rows : List Row) : String :=
  csvLine ["StartDate", "EndDate", "DurationMinutes", "Value"]
    ++ String.join (rows.map (fun r => csvLine (rowFields r)))

/-- The startup progress message. -/
def progressLine : String := "🔍 Parsing export.xml …"

/-- The completion message (`OUTPUT_FILE` renders as its path text). -/
def finishedLine (written : Nat) : String :=
  "✅ Finished. " ++ toString written ++ " records written to sleep_data.csv"

/-- The skipped-count message, printed only when `skipped` is truthy. -/
def skippedLine (skipped : Nat) : String :=
  "⚠️  " ++ toString skipped ++ " records skipped due to parsing issues."

/-- The final console summary: the finished line always, the skipped
line only under `if skipped:`. -/
def summaryLines (written skipped : Nat) : List String :=
  [finishedLine written] ++ (if skipped ≠ 0 then [skippedLine skipped] else [])

/-- The outcome of the two fallible steps that precede any output:
the `INPUT_FILE.exists()` check and `ET.parse`. -/
inductive InputState where
  | missing
  | malformed
  | doc (records : List RawRecord)
deriving DecidableEq

/-- The unhandled exceptions `main` can raise. -/
inductive Fatal where
  | fileNotFound
  | parseError
deriving DecidableEq

/-- Observable outcome of one run of `main`: the escaped exception (if
any), the contents of `sleep_data.csv` afterwards, and the console
lines in print order. -/
structure MainResult where
  fatal : Option Fatal
  outputFile : String
  consoleOut : List String
deriving DecidableEq

/-- `main()`, following the statement order of the script: the
existence check raises before anything is printed; `ET.parse` raises
after the progress message; only then is `OUTPUT_FILE` opened (`"w"`
truncates), the header and rows written, and the summary printed.
`records` holds the `Record` children of the root in document order
(`root.findall("Record")`); `prevOutput` is the prior contents of the
output file, which an aborted run leaves untouched. -/
def mainRun (input : InputState) (prevOutput : String) : MainResult :=
  match input with
  | .missing =>
    { fatal := some .fileNotFound, outputFile := prevOutput, consoleOut := [] }
  | .malformed =>
    { fatal := some .parseError, outputFile := prevOutput,
      consoleOut := [progressLine] }
  | .doc records =>
    let st := processAll records
    { fatal := none,
      outputFile := renderCsv st.rows,
      consoleOut := [progressLine] ++ st.diagnostics
        ++ summaryLines st.written st.skipped }

/-- Rows contributed by one record (none when filtered or failing). -/
def recordRows (r : RawRecord) : List Row :=
  if matchingB r = false then []
  else
    match transformRecord r with
    | .error _ => []
    | .ok row => [row]

/-- Written-counter contribution of one record. -/
def recordWritten (r : RawRecord) : Nat :=
  if matchingB r = false then 0
  else
    match transformRecord r with
    | .error _ => 0
    | .ok _ => 1

/-- Skip-counter contribution of one record. -/
def recordSkipCount (r : RawRecord) : Nat :=
  if matchingB r = false then 0
  else
    match transformRecord r with
    | .error _ => 1
    | .ok _ => 0

/-- Diagnostic lines contributed by one record. -/
def recordDiags (r : RawRecord) : List String :=
  if matchingB r = false then []
  else
    match transformRecord r with
    | .error e => [skipLine e]
    | .ok _ => []

/-- Rows of a whole document, record by record. -/
def docRows : List RawRecord → List Row
  | [] => []
  | r :: rest => recordRows r ++ docRows rest

/-- Written count of a whole document. -/
def docWritten : List RawRecord → Nat
  | [] => 0
  | r :: rest => recordWritten r + docWritten rest

/-- Skipped count of a whole document. -/
def docSkipped : List RawRecord → Nat
  | [] => 0
  | r :: rest => recordSkipCount r + docSkipped rest

/-- Diagnostics of a whole document. -/
def docDiags : List RawRecord → List String
  | [] => []
  | r :: rest => recordDiags r ++ docDiags rest

/-- A valid sleep record (8 hours, Pacific offset). -/
def sampleSleep : RawRecord :=
  ⟨some "HKCategoryTypeIdentifierSleepAnalysis",
   some "2023-01-01 23:00:00 -0800", some "2023-01-02 07:00:00 -0800",
   some "HKCategoryValueSleepAnalysisAsleep"⟩

/-- The start datetime of `sampleSleep` as parsed. -/
def sampleStart : PDatetime := ⟨2023, 1, 1, 23, 0, 0, -28800000000⟩

/-- The end datetime of `sampleSleep` as parsed. -/
def sampleEnd : PDatetime := ⟨2023, 1, 2, 7, 0, 0, -28800000000⟩

/-- The CSV row produced for `sampleSleep` (the duration expression
evaluates to 480 minutes, see `sampleRow_duration`). -/
def sampleRow : Row :=
  ⟨sampleStart, sampleEnd, pyRound2 (rawDurationMin sampleStart sampleEnd), "Asleep"⟩

/-- A sleep record with an unparseable `startDate`. -/
def sampleBad : RawRecord :=
  ⟨some "HKCategoryTypeIdentifierSleepAnalysis",
   some "not-a-date", some "2023-01-02 07:00:00 -0800", none⟩

/-- A record of a non-sleep type. -/
def sampleOther : RawRecord :=
  ⟨some "HKQuantityTypeIdentifierHeartRate", some "x", some "y", none⟩

lemma sampleRow_duration : sampleRow.durationMinutes = 480 := by
  have hint : utcUs sampleEnd - utcUs sampleStart = (28800000000 : Int) := by decide
  show pyRound2 (rawDurationMin sampleStart sampleEnd) = 480
  rw [rawDurationMin, totalSecondsQ, hint]
  have h480 : ((28800000000 : ℤ) : ℚ) / 1000000 / 60 = 480 := by norm_num
  rw [h480, pyRound2, roundHalfEven]
  rw [show (480 * 100 : ℚ) = ((48000 : ℤ) : ℚ) by norm_num]
  rw [Int.fract_intCast, Int.floor_intCast]
  norm_num

lemma processRecord_eq (st : RunState) (r : RawRecord) :
    processRecord st r
      = ⟨st.rows ++ recordRows r, st.written + recordWritten r,
         st.skipped + recordSkipCount r, st.diagnostics ++ recordDiags r⟩ := by
  cases hm : matchingB r with
  | false =>
    simp [processRecord, recordRows, recordWritten, recordSkipCount, recordDiags, hm]
  | true =>
    cases ht : transformRecord r with
    | error e =>
      simp [processRecord, recordRows, recordWritten, recordSkipCount, recordDiags,
        hm, ht]
    | ok row =>
      simp [processRecord, recordRows, recordWritten, recordSkipCount, recordDiags,
        hm, ht]

lemma foldl_processRecord (recs : List RawRecord) : ∀ st : RunState,
    List.foldl processRecord st recs
      = ⟨st.rows ++ docRows recs, st.written + docWritten recs,
         st.skipped + docSkipped recs, st.diagnostics ++ docDiags recs⟩ := by
  induction recs with
  | nil =>
    intro st
    simp [docRows, docWritten, docSkipped, docDiags]
  | cons r rest ih =>
    intro st
    rw [List.foldl_cons, processRecord_eq, ih]
    simp [docRows, docWritten, docSkipped, docDiags, List.append_assoc, Nat.add_assoc]

lemma processAll_eq (recs : List RawRecord) :
    processAll recs = ⟨docRows recs, docWritten recs, docSkipped recs, docDiags recs⟩ := by
  rw [processAll, foldl_processRecord]
  simp

lemma record_row_skip (r : RawRecord) :
    (recordRows r).length + recordSkipCount r = if matchingB r = true then 1 else 0 := by
  cases hm : matchingB r with
  | false => simp [recordRows, recordSkipCount, hm]
  | true =>
    cases ht : transformRecord r with
    | error e => simp [recordRows, recordSkipCount, hm, ht]
    | ok row => simp [recordRows, recordSkipCount, hm, ht]

lemma docRows_append (l1 l2 : List RawRecord) :
    docRows (l1 ++ l2) = docRows l1 ++ docRows l2 := by
  induction l1 with
  | nil => simp [docRows]
  | cons r rest ih => simp [docRows, ih]

lemma recordRows_ok {r : RawRecord} {row : Row}
    (hm : matchingB r = true) (ht : transformRecord r = .ok row) :
    recordRows r = [row] := by
  simp [recordRows, hm, ht]

lemma abs_roundHalfEven_sub_le (q : ℚ) : |(roundHalfEven q : ℚ) - q| ≤ 1 / 2 := by
  have h0 : (0 : ℚ) ≤ Int.fract q := Int.fract_nonneg q
  have h1 : Int.fract q < 1 := Int.fract_lt_one q
  have hf : q - (⌊q⌋ : ℚ) = Int.fract q := Int.self_sub_floor q
  unfold roundHalfEven
  split_ifs with hlt hgt hev
  · rw [abs_le]
    constructor <;> linarith
  · rw [abs_le]
    push_cast
    constructor <;> linarith
  · rw [abs_le]
    constructor <;> linarith
  · rw [abs_le]
    push_cast
    constructor <;> linarith

lemma abs_pyRound2_sub_le (q : ℚ) : |pyRound2 q - q| ≤ 1 / 200 := by
  have h := abs_roundHalfEven_sub_le (q * 100)
  rw [abs_le] at h ⊢
  unfold pyRound2
  obtain ⟨ha, hb⟩ := h
  constructor <;> linarith

lemma abs_pyRound2_times60 (a b : PDatetime) :
    |pyRound2 (rawDurationMin a b) * 60 - totalSecondsQ a b| ≤ 3 / 10 := by
  have h := abs_pyRound2_sub_le (rawDurationMin a b)
  rw [abs_le] at h ⊢
  rw [rawDurationMin] at h ⊢
  obtain ⟨ha, hb⟩ := h
  constructor <;> linarith

lemma pyReplaceAllGo_of_no_occurrence {pat : List Char} :
    ∀ (fuel : Nat) (s : List Char), ¬ pat <:+: s → pyReplaceAllGo pat fuel s = s := by
  intro fuel
  induction fuel with
  | zero =>
    intro s _
    cases s <;> rfl
  | succ fuel ih =>
    intro s h
    cases s with
    | nil => rfl
    | cons c rest =>
      have hpre : ¬ pat <+: (c :: rest) := by
        intro hp
        exact h hp.isInfix
      have hrest : ¬ pat <:+: rest := by
        intro hi
        exact h (hi.trans (List.suffix_cons c rest).isInfix)
      rw [pyReplaceAllGo, if_neg, ih rest hrest]
      intro hand
      exact hpre hand.2

lemma pyReplaceAll_of_no_occurrence {pat s : List Char} (h : ¬ pat <:+: s) :
    pyReplaceAll pat s = s :=
  pyReplaceAllGo_of_no_occurrence s.length s h

/-- C1: for every input document, the number of CSV data rows written
plus the skipped count equals the number of `Record` children whose
`type` attribute (absent treated as the empty string) ends with
`"SleepAnalysis"`. -/
theorem C1_rows_plus_skipped (recs : List RawRecord) :
    (processAll recs).rows.length + (processAll recs).skipped
      = (recs.filter (fun r => matchingB r)).length := by
  rw [processAll_eq]
  show (docRows recs).length + docSkipped recs = _
  induction recs with
  | nil => simp [docRows, docSkipped]
  | cons r rest ih =>
    have hr := record_row_skip r
    cases hm : matchingB r with
    | false =>
      rw [hm] at hr
      simp only [docRows, docSkipped, List.length_append, List.filter_cons, hm] at hr ⊢
      simp only [Bool.false_eq_true, if_false] at hr ⊢
      omega
    | true =>
      rw [hm] at hr
      simp only [docRows, docSkipped, List.length_append, List.filter_cons, hm] at hr ⊢
      simp only [if_true, List.length_cons] at hr ⊢
      omega

/-- C2: the datetime parser tries the space-separated pattern first and
the `T`-separated pattern second, returns the first successful parse,
fails with an error carrying the offending text when neither matches,
and behaves as claimed on the three example inputs; offsets with
seconds parse only under consistent colon use, mixed forms being
rejected as in `_strptime`. -/
theorem C2_two_pattern_fallback :
    (∀ (s : String) (d : PDatetime),
        strptimeSpace s = some d → parse_apple_datetime s = .ok d)
    ∧ (∀ (s : String) (d : PDatetime),
        strptimeSpace s = none → strptimeT s = some d →
          parse_apple_datetime s = .ok d)
    ∧ (∀ s : String,
        strptimeSpace s = none → strptimeT s = none →
          parse_apple_datetime s = .error ("Unrecognised datetime: " ++ s))
    ∧ parse_apple_datetime "2023-01-01 23:00:00 -0800"
        = .ok ⟨2023, 1, 1, 23, 0, 0, -28800000000⟩
    ∧ parse_apple_datetime "2023-01-02T07:15:30-08:00"
        = .ok ⟨2023, 1, 2, 7, 15, 30, -28800000000⟩
    ∧ parse_apple_datetime "not-a-date"
        = .error "Unrecognised datetime: not-a-date"
    ∧ parse_apple_datetime "2023-01-01 23:00:00 +08:30:45"
        = .ok ⟨2023, 1, 1, 23, 0, 0, 30645000000⟩
    ∧ parse_apple_datetime "2023-01-01 23:00:00 +08:3045"
        = .error "Unrecognised datetime: 2023-01-01 23:00:00 +08:3045"
    ∧ parse_apple_datetime "2023-01-01 23:00:00 +0830:45"
        = .error "Unrecognised datetime: 2023-01-01 23:00:00 +0830:45" := by
  refine ⟨?_, ?_, ?_, by decide, by decide, by decide, by decide, by decide,
    by decide⟩
  · intro s d h
    simp [parse_apple_datetime, h]
  · intro s d h1 h2
    simp [parse_apple_datetime, h1, h2]
  · intro s h1 h2
    simp [parse_apple_datetime, h1, h2]

/-- C2 witness: the generic first-success clauses applied to concrete
inputs. -/
theorem C2_two_pattern_fallback_witness :
    parse_apple_datetime "1999-12-31T23:59:59+0000"
      = .ok ⟨1999, 12, 31, 23, 59, 59, 0⟩ :=
  C2_two_pattern_fallback.2.1 "1999-12-31T23:59:59+0000" _ (by decide) (by decide)

/-- C3: value simplification deletes every occurrence of the marker
string anywhere in the text (shown on the two claimed examples and on a
non-anchored occurrence) and, when the marker does not occur, only
strips leading whitespace. -/
theorem C3_value_simplification :
    simplify_value "HKCategoryValueSleepAnalysisAsleep" = "Asleep"
    ∧ simplify_value "HKCategoryValueSleepAnalysisInBed" = "InBed"
    ∧ simplify_value "XHKCategoryValueSleepAnalysisY" = "XY"
    ∧ ∀ v : String, ¬ PREFIX.data <:+: v.data →
        simplify_value v = String.mk (pyLstrip v.data) := by
  refine ⟨by decide, by decide, by decide, ?_⟩
  intro v h
  rw [simplify_value, pyReplaceAll_of_no_occurrence h]

/-- C3 witness: the no-occurrence clause applied to a concrete value. -/
theorem C3_value_simplification_witness :
    simplify_value "  Asleep" = String.mk (pyLstrip "  Asleep".data) :=
  C3_value_simplification.2.2.2 "  Asleep" (by decide)

/-- C4: every written row's `durationMinutes` is the exact duration in
minutes rounded half-to-even at two decimals, hence within 1/200 of the
exact minutes, and its value times 60 is within 3/10 seconds of the
end-minus-start difference in seconds; nothing rejects a negative or
zero duration. -/
theorem C4_duration_rounding (r : RawRecord) (row : Row)
    (h : transformRecord r = .ok row) :
    row.durationMinutes = pyRound2 (rawDurationMin row.start row.end_)
    ∧ |row.durationMinutes - rawDurationMin row.start row.end_| ≤ 1 / 200
    ∧ |row.durationMinutes * 60 - totalSecondsQ row.start row.end_| ≤ 3 / 10 := by
  unfold transformRecord at h
  repeat' split at h
  any_goals exact Except.noConfusion h
  injection h with h
  subst h
  exact ⟨rfl, abs_pyRound2_sub_le _, abs_pyRound2_times60 _ _⟩

/-- C4 witness: the rounding bound at the sample record. -/
theorem C4_duration_rounding_witness :
    sampleRow.durationMinutes
        = pyRound2 (rawDurationMin sampleRow.start sampleRow.end_)
    ∧ |sampleRow.durationMinutes - rawDurationMin sampleRow.start sampleRow.end_|
        ≤ 1 / 200
    ∧ |sampleRow.durationMinutes * 60 - totalSecondsQ sampleRow.start sampleRow.end_|
        ≤ 3 / 10 :=
  C4_duration_rounding sampleSleep sampleRow rfl

/-- C5: output rows appear in document order: a matching, successfully
transformed record earlier in the document contributes its row before
one later in the document. -/
theorem C5_order_preserved (l1 l2 l3 : List RawRecord) (a b : RawRecord)
    (ra rb : Row)
    (ha : matchingB a = true) (hta : transformRecord a = .ok ra)
    (hb : matchingB b = true) (htb : transformRecord b = .ok rb) :
    (processAll (l1 ++ a :: (l2 ++ b :: l3))).rows
      = (processAll l1).rows
          ++ ra :: ((processAll l2).rows ++ rb :: (processAll l3).rows) := by
  simp only [processAll_eq]
  rw [docRows_append]
  simp [docRows, docRows_append, recordRows_ok ha hta, recordRows_ok hb htb]

/-- C5 witness: order preservation at a concrete three-record document. -/
theorem C5_order_preserved_witness :
    (processAll ([sampleOther] ++ sampleSleep :: ([sampleBad] ++ sampleSleep :: []))).rows
      = (processAll [sampleOther]).rows
          ++ sampleRow :: ((processAll [sampleBad]).rows
            ++ sampleRow :: (processAll []).rows) :=
  C5_order_preserved [sampleOther] [sampleBad] [] sampleSleep sampleSleep
    sampleRow sampleRow (by decide) rfl (by decide) rfl

/-- C6: a record whose `type` attribute does not end with
`"SleepAnalysis"` leaves the loop state untouched: no row, no skip
count, no diagnostic; an absent `type` attribute is treated as the
empty string and is likewise excluded silently. -/
theorem C6_silent_exclusion :
    (∀ (st : RunState) (r : RawRecord),
        matchingB r = false → processRecord st r = st)
    ∧ ∀ (st : RunState) (sd ed v : Option String),
        processRecord st ⟨none, sd, ed, v⟩ = st := by
  constructor
  · intro st r h
    simp [processRecord, h]
  · intro st sd ed v
    have h : matchingB ⟨none, sd, ed, v⟩ = false := by
      show pyEndsWith "" "SleepAnalysis" = false
      decide
    simp [processRecord, h]

/-- C6 witness: a heart-rate record leaves a concrete state unchanged. -/
theorem C6_silent_exclusion_witness :
    processRecord ⟨[], 0, 0, []⟩ sampleOther = ⟨[], 0, 0, []⟩ :=
  C6_silent_exclusion.1 ⟨[], 0, 0, []⟩ sampleOther (by decide)

/-- C7: the run is fatal exactly when the input file is missing or the
document is malformed; a per-record failure only increments the skip
counter and appends one diagnostic, leaving the rows unchanged, and the
loop continues. -/
theorem C7_fatal_iff_recoverable :
    (∀ (input : InputState) (prev : String),
        (mainRun input prev).fatal = none ↔ ∃ recs, input = InputState.doc recs)
    ∧ ∀ (st : RunState) (r : RawRecord) (e : String),
        matchingB r = true → transformRecord r = .error e →
        processRecord st r
          = { st with skipped := st.skipped + 1,
                      diagnostics := st.diagnostics ++ [skipLine e] } := by
  constructor
  · intro input prev
    cases input with
    | missing => simp [mainRun]
    | malformed => simp [mainRun]
    | doc recs => simp [mainRun]
  · intro st r e hm ht
    simp [processRecord, hm, ht]

/-- C7 witness: the recoverable clause at a concrete bad record and the
fatality of a missing input file. -/
theorem C7_fatal_iff_recoverable_witness :
    processRecord ⟨[], 0, 0, []⟩ sampleBad
      = ⟨[], 0, 1, [skipLine "Unrecognised datetime: not-a-date"]⟩ :=
  C7_fatal_iff_recoverable.2 ⟨[], 0, 0, []⟩ sampleBad
    "Unrecognised datetime: not-a-date" (by decide) (by decide)

/-- C8 counterexample: a run over a document with no skipped records
completes normally, yet its console output does not contain the
skipped-count line — the code prints it only under `if skipped:`. -/
theorem C8_skip_report_counterexample :
    (mainRun (InputState.doc []) "").fatal = none
    ∧ skippedLine 0 ∉ (mainRun (InputState.doc []) "").consoleOut := by
  decide

/-- C8 (amended): on every normal completion the written count is
always reported; the skipped count is reported when it is nonzero, and
when it is zero the summary is the finished line alone. -/
theorem C8_summary_reporting (recs : List RawRecord) (prev : String) :
    finishedLine (processAll recs).written
        ∈ (mainRun (InputState.doc recs) prev).consoleOut
    ∧ ((processAll recs).skipped ≠ 0 →
        skippedLine (processAll recs).skipped
          ∈ (mainRun (InputState.doc recs) prev).consoleOut)
    ∧ ((processAll recs).skipped = 0 →
        summaryLines (processAll recs).written (processAll recs).skipped
          = [finishedLine (processAll recs).written]) := by
  refine ⟨?_, ?_, ?_⟩
  · simp [mainRun, summaryLines]
  · intro h
    simp [mainRun, summaryLines, h]
  · intro h
    simp [summaryLines, h]

/-- C8 witness: with one skipped record the skipped line is reported. -/
theorem C8_summary_reporting_witness :
    skippedLine (processAll [sampleBad]).skipped
      ∈ (mainRun (InputState.doc [sampleBad]) "").consoleOut :=
  (C8_summary_reporting [sampleBad] "").2.1 (by decide)

/-- C9: when the run aborts fatally, the output file still holds its
previous contents: the fatal paths precede the opening (and hence
truncation) of the output file. -/
theorem C9_fatal_leaves_output (input : InputState) (prev : String)
    (h : (mainRun input prev).fatal ≠ none) :
    (mainRun input prev).outputFile = prev := by
  cases input with
  | missing => rfl
  | malformed => rfl
  | doc recs => simp [mainRun] at h

/-- C9 witness: a missing input file leaves concrete prior contents. -/
theorem C9_fatal_leaves_output_witness :
    (mainRun InputState.missing "previous contents").outputFile
      = "previous contents" :=
  C9_fatal_leaves_output InputState.missing "previous contents" (by decide)

/-- C10: a filtered record whose two timestamps parse always yields a
written row — whatever the `value` attribute holds (absent, empty or
arbitrary), the simplification is total and neither the skip counter
nor the diagnostics change. -/
theorem C10_value_never_skips (st : RunState) (r : RawRecord)
    (sd ed : String) (s e_ : PDatetime)
    (hm : matchingB r = true)
    (hsd : r.startDate = some sd) (hps : parse_apple_datetime sd = .ok s)
    (hed : r.endDate = some ed) (hpe : parse_apple_datetime ed = .ok e_) :
    processRecord st r
      = { st with
          rows := st.rows
            ++ [{ start := s, end_ := e_,
                  durationMinutes := pyRound2 (rawDurationMin s e_),
                  value := simplify_value (r.value.getD "") }],
          written := st.written + 1 } := by
  simp [processRecord, hm, transformRecord, hsd, hps, hed, hpe]

/-- C10 witness: the sample sleep record writes exactly one row from a
concrete state. -/
theorem C10_value_never_skips_witness :
    processRecord ⟨[], 0, 0, []⟩ sampleSleep = ⟨[sampleRow], 1, 0, []⟩ :=
  C10_value_never_skips ⟨[], 0, 0, []⟩ sampleSleep
    "2023-01-01 23:00:00 -0800" "2023-01-02 07:00:00 -0800"
    sampleStart sampleEnd (by decide) rfl (by decide) rfl (by decide)

end SleepData
